import Mathlib

/-!
Verification of the IMDB crawl-and-extract engine (`src/parsing/parse_imdb.py`)
against its natural-language specification.

Shallow embedding conventions:
* Python strings are Lean `String`s; Python `None` is `Option.none`.
* Python string helpers (`str.split()`, `str.strip()`, `str.lower()`,
  `'x' in s`, slicing) are modelled explicitly on `String.data`.
* Fallible code returns `Except String`/`Option`; an uncaught Python
  exception (AttributeError / NameError / IndexError) is `none`.
* The network is a parameter: a listing "site" is a function from the
  `start` query offset to the list of item containers on that page, and
  the HTML-tree accessors consumed from BeautifulSoup are parameters or
  pre-extracted fields, mirroring the spec's "external collaborator" view.
* The crawl's `while` loop is run with explicit fuel; exhausting the fuel
  with the `done` flag still `false` witnesses that the loop has not
  terminated within that many iterations.
-/

namespace ParseImdb

/-- Python whitespace test used by `str.split()` / `str.strip()`. -/
def pyWhitespace (c : Char) : Bool :=
  c == ' ' || c == '\t' || c == '\n' || c == '\r' || c == '\x0b' || c == '\x0c'

/-- Accumulating pass of `str.split()`: `acc` holds the current word,
reversed. -/
def pySplitChars : List Char → List Char → List String
  | [], acc => if acc = [] then [] else [String.mk acc.reverse]
  | c :: cs, acc =>
    if pyWhitespace c then
      if acc = [] then pySplitChars cs []
      else String.mk acc.reverse :: pySplitChars cs []
    else pySplitChars cs (c :: acc)

/-- Python `s.split()` (no argument): split on whitespace runs, dropping
empty pieces. -/
def pySplitWs (s : String) : List String :=
  pySplitChars s.data []

/-- Helper `dropFront pat cs` returns the remainder of `cs` after `pat` when `cs`
starts with `pat`. -/
def dropFront : List Char → List Char → Option (List Char)
  | [], cs => some cs
  | _ :: _, [] => none
  | p :: ps, c :: cs => if p = c then dropFront ps cs else none

/-- Fuelled worker for `str.split(sep)`; with fuel at least the length of
the text and a nonempty separator the fuel never runs out. -/
def splitOnFuel (sep : List Char) : Nat → List Char → List Char → List String
  | 0, cs, acc => [String.mk (acc.reverse ++ cs)]
  | fuel + 1, cs, acc =>
    match cs with
    | [] => [String.mk acc.reverse]
    | c :: cs' =>
      match dropFront sep cs with
      | some rest => String.mk acc.reverse :: splitOnFuel sep fuel rest []
      | none => splitOnFuel sep fuel cs' (c :: acc)

/-- Python `s.split(sep)` for a nonempty separator: non-overlapping
left-to-right splits, keeping empty pieces. -/
def pySplitOnSep (sep s : String) : List String :=
  splitOnFuel sep.data s.data.length s.data []

/-- Fuelled worker for `str.replace`. -/
def replaceFuel (pat rep : List Char) : Nat → List Char → List Char
  | 0, cs => cs
  | fuel + 1, cs =>
    match cs with
    | [] => []
    | c :: cs' =>
      match dropFront pat cs with
      | some rest => rep ++ replaceFuel pat rep fuel rest
      | none => c :: replaceFuel pat rep fuel cs'

/-- Python `s.replace(pat, rep)` for a nonempty pattern: replace every
non-overlapping occurrence, left to right. -/
def pyReplace (s pat rep : String) : String :=
  String.mk (replaceFuel pat.data rep.data s.data.length s.data)

/-- Decimal value of a digit string. -/
def digitsToNat : List Char → Nat → Nat
  | [], acc => acc
  | c :: cs, acc => digitsToNat cs (acc * 10 + (c.toNat - '0'.toNat))

/-- Python `s.isdigit() and int(s)` combined: `some` of the value when `s`
is nonempty and all digits, else `none`. -/
def pyToNat? (s : String) : Option Nat :=
  if s.data ≠ [] ∧ s.data.all Char.isDigit then some (digitsToNat s.data 0) else none

/-- Python `s.strip()`: drop leading and trailing whitespace. -/
def pyStrip (s : String) : String :=
  String.mk (((s.data.dropWhile pyWhitespace).reverse.dropWhile pyWhitespace).reverse)

/-- Python `s.lower()` (ASCII case fold, which is all the vocabulary uses). -/
def pyLower (s : String) : String :=
  String.mk (s.data.map Char.toLower)

/-- Python `' '.join(s.split())`: collapse internal whitespace runs to a
single space (this also strips the ends, as in the source). -/
def pyCollapse (s : String) : String :=
  String.intercalate " " (pySplitWs s)

/-- Python `sub in s` substring test. -/
def pyContains (sub s : String) : Bool :=
  decide (List.IsInfix sub.data s.data)

/-! ## Pagination crawler (`parse_imdb`, lines 135-206)

The generator body is

```
films_parsed = 0
while films_parsed < n_films:
    query_html = requests.get(SEARCH_ADDRESS, params=params)
    for film_container in <containers of the page>:
        <extract and yield one stub>
        films_parsed += 1
        if films_parsed >= n_films:
            return
        params['start'] = films_parsed + 1
```

The per-stub extraction and the detail fetch do not influence the loop
control, so the stubs are abstracted to an arbitrary type `α` here; the
listing site is a function `Nat → List α` from the `start` offset to that
page's containers.  Note the source contains no "next page" test of any
kind. -/

/-- One pass of the inner `for film_container in ...` loop.  Returns
`(yielded stubs, films_parsed, start, returned?)`: `returned? = true`
means the generator executed `return` (target reached mid-page). -/
def pageLoop (nFilms : Nat) : List α → Nat → Nat → List α × Nat × Nat × Bool
  | [], fp, st => ([], fp, st, false)
  | s :: rest, fp, st =>
    let fp' := fp + 1
    if nFilms ≤ fp' then ([s], fp', st, true)
    else
      let r := pageLoop nFilms rest fp' (fp' + 1)
      (s :: r.1, r.2)

/-- The `while films_parsed < n_films` loop, run with explicit fuel.
Returns `(yielded stubs, number of listing fetches, terminated?)`;
`terminated? = false` means the fuel ran out with the loop still going. -/
def crawlLoop (site : Nat → List α) (nFilms : Nat) : Nat → Nat → Nat → List α × Nat × Bool
  | 0, _, _ => ([], 0, false)
  | fuel + 1, fp, st =>
    if fp < nFilms then
      let p := pageLoop nFilms (site st) fp st
      if p.2.2.2 then (p.1, 1, true)
      else
        let r := crawlLoop site nFilms fuel p.2.1 p.2.2.1
        (p.1 ++ r.1, r.2.1 + 1, r.2.2)
    else ([], 0, true)

/-- The generator `parse_imdb(params, n_films)` as a whole: `films_parsed` starts at 0 and
`params['start']` is 1 when the generator is first entered. -/
def parse_imdb (site : Nat → List α) (nFilms fuel : Nat) : List α × Nat × Bool :=
  crawlLoop site nFilms fuel 0 1

/-- Offsets the crawl visits: page `i` is fetched at `start = prefSum site i + 1`,
and `prefSum site i` is the total number of containers on the first `i`
visited pages. -/
def prefSum (site : Nat → List α) : Nat → Nat
  | 0 => 0
  | k + 1 => prefSum site k + (site (prefSum site k + 1)).length

lemma pageLoop_ret (nFilms : Nat) :
    ∀ (page : List α) (fp st : Nat), fp < nFilms → nFilms ≤ fp + page.length →
    ∃ ys st', pageLoop nFilms page fp st = (ys, nFilms, st', true) ∧
      ys.length = nFilms - fp := by
  intro page
  induction page with
  | nil => intro fp st h1 h2; simp at h2; omega
  | cons s rest ih =>
    intro fp st h1 h2
    by_cases hle : nFilms ≤ fp + 1
    · have : nFilms = fp + 1 := by omega
      refine ⟨[s], st, ?_, ?_⟩
      · simp [pageLoop, hle]; omega
      · simp; omega
    · have h1' : fp + 1 < nFilms := by omega
      have h2' : nFilms ≤ (fp + 1) + rest.length := by simp at h2; omega
      obtain ⟨ys, st', heq, hlen⟩ := ih (fp + 1) (fp + 1 + 1) (by omega) h2'
      refine ⟨s :: ys, st', ?_, ?_⟩
      · simp [pageLoop, hle, heq]
      · simp [hlen]; omega

lemma pageLoop_cont (nFilms : Nat) :
    ∀ (page : List α) (fp : Nat), fp + page.length < nFilms →
    pageLoop nFilms page fp (fp + 1) =
      (page, fp + page.length, fp + page.length + 1, false) := by
  intro page
  induction page with
  | nil => intro fp h; simp [pageLoop]
  | cons s rest ih =>
    intro fp h
    have hlen : (s :: rest).length = rest.length + 1 := by simp
    have hcond : ¬ nFilms ≤ fp + 1 := by simp at h; omega
    have ihh := ih (fp + 1) (by simp at h ⊢; omega)
    simp only [pageLoop, hcond, if_false]
    rw [ihh]
    simp; omega

/-- If the current page is empty and the target is not reached, the loop
refetches the very same offset forever: with any fuel it performs exactly
`fuel` more fetches, yields nothing, and never terminates. -/
lemma crawlLoop_empty (site : Nat → List α) (nFilms : Nat) :
    ∀ (fuel fp st : Nat), site st = [] → fp < nFilms →
    crawlLoop site nFilms fuel fp st = ([], fuel, false) := by
  intro fuel
  induction fuel with
  | zero => intro fp st _ _; rfl
  | succ f ih =>
    intro fp st hempty hlt
    have hpage : pageLoop nFilms (site st) fp st = ([], fp, st, false) := by
      rw [hempty]; rfl
    simp only [crawlLoop, hlt, if_true, hpage]
    rw [ih fp st hempty hlt]
    simp

/-- Invariant run of the `while` loop: entering iteration `i` with
`films_parsed = prefSum site i` and `start = prefSum site i + 1`, if the
target is first reached on visited page `i + d - 1`, the remaining run
performs exactly `d` more fetches, yields the missing
`nFilms - prefSum site i` stubs, and terminates. -/
lemma crawlLoop_reaches (site : Nat → List α) (nFilms : Nat) :
    ∀ (d i fuel : Nat), 1 ≤ d → d ≤ fuel →
    nFilms ≤ prefSum site (i + d) →
    (∀ j, j < i + d → prefSum site j < nFilms) →
    ∃ ys, crawlLoop site nFilms fuel (prefSum site i) (prefSum site i + 1) =
        (ys, d, true) ∧ ys.length = nFilms - prefSum site i := by
  intro d
  induction d with
  | zero => intro i fuel h1; omega
  | succ d ih =>
    intro i fuel _ hfuel htot hmin
    obtain ⟨f, rfl⟩ : ∃ f, fuel = f + 1 := ⟨fuel - 1, by omega⟩
    have hfp : prefSum site i < nFilms := hmin i (by omega)
    rcases Nat.eq_zero_or_pos d with hd0 | hdpos
    · -- last visited page: the target is reached mid-page and the
      -- generator returns
      subst hd0
      have hreach : nFilms ≤ prefSum site i + (site (prefSum site i + 1)).length := by
        have := htot; rw [show i + 1 = i + 1 from rfl, prefSum] at this; omega
      obtain ⟨ys, st', heq, hlen⟩ :=
        pageLoop_ret nFilms (site (prefSum site i + 1)) (prefSum site i)
          (prefSum site i + 1) hfp hreach
      refine ⟨ys, ?_, hlen⟩
      simp only [crawlLoop, hfp, if_true, heq]
    · -- the page is exhausted below the target; recurse at the next offset
      have hnext : prefSum site (i + 1) < nFilms := hmin (i + 1) (by omega)
      have hlen1 : prefSum site i + (site (prefSum site i + 1)).length < nFilms := by
        rw [prefSum] at hnext; omega
      have hcont := pageLoop_cont nFilms (site (prefSum site i + 1)) (prefSum site i) hlen1
      have hrw : prefSum site i + (site (prefSum site i + 1)).length = prefSum site (i + 1) := by
        rw [prefSum]
      rw [hrw] at hcont
      have hstep := ih (i + 1) f hdpos (by omega)
        (by rw [show i + 1 + d = i + (d + 1) from by omega]; exact htot)
        (by intro j hj; exact hmin j (by omega))
      obtain ⟨ys, heq, hlen⟩ := hstep
      refine ⟨site (prefSum site i + 1) ++ ys, ?_, ?_⟩
      · simp only [crawlLoop, hfp, if_true, hcont]
        simp [heq]
      · have h1 : prefSum site i ≤ prefSum site (i + 1) := by rw [prefSum]; omega
        simp [hlen]
        rw [← hrw]
        omega

/-! ### Claim C5: crawl with enough containers yields exactly N stubs

Status: confirmed.  The code stops (via `return`) exactly when
`films_parsed` reaches `n_films`, even mid-page, and the number of listing
fetches is exactly the minimal number `k` of visited pages whose
containers sum to at least `N`. -/

/-- C5: for every target count `N > 0` and every listing site whose visited
pages cumulatively contain at least `N` containers, `parse_imdb` yields
exactly `N` stubs, terminates via its mid-page `return`, and issues exactly
`k` listing fetches where `k` is the minimal number of pages needed to
reach `N` containers — never a fetch beyond those needed. -/
theorem C5_pagination_exact (site : Nat → List α) (N k fuel : Nat)
    (hN : 0 < N) (hk : N ≤ prefSum site k)
    (hmin : ∀ j, j < k → prefSum site j < N) (hfuel : k ≤ fuel) :
    (parse_imdb site N fuel).1.length = N ∧
    (parse_imdb site N fuel).2.1 = k ∧
    (parse_imdb site N fuel).2.2 = true := by
  have hk1 : 1 ≤ k := by
    by_contra h
    have : k = 0 := by omega
    subst this
    simp [prefSum] at hk
    omega
  have := crawlLoop_reaches site N k 0 fuel hk1 hfuel
    (by simpa using hk) (by simpa using hmin)
  obtain ⟨ys, heq, hlen⟩ := this
  have h0 : prefSum site 0 = 0 := rfl
  rw [h0] at heq
  unfold parse_imdb
  rw [heq]
  simp [hlen, prefSum]

/-- A concrete two-page site: offset 1 holds two containers, offset 3 two
more, later offsets are empty. -/
def site5 : Nat → List String := fun st =>
  if st = 1 then ["a", "b"] else if st = 3 then ["c", "d"] else []

theorem C5_pagination_exact_witness :
    (parse_imdb site5 3 2).1.length = 3 ∧
    (parse_imdb site5 3 2).2.1 = 2 ∧
    (parse_imdb site5 3 2).2.2 = true :=
  C5_pagination_exact site5 3 2 2 (by decide) (by decide) (by decide) (by decide)

/-! ### Claim C1: short-read termination

Status: corrected.  The claim (and the spec) say the crawl ends when a
listing page carries no "next page" affordance, yielding the `M < N` stubs
found so far and issuing no further listing fetches.  The source contains
no next-page test at all: `while films_parsed < n_films` refetches
unconditionally, so once the pages are exhausted the loop refetches an
empty listing forever and the generator never terminates. -/

/-- A site with a single container at offset 1 and nothing anywhere else. -/
def site0 : Nat → List String := fun st =>
  if st = 1 then ["s"] else []

/-- C1 counterexample: with `M = 1 < N = 2` and no further pages, after 5
loop iterations the crawl has yielded the single stub but has issued 5
listing fetches (not 0 further ones) and has not terminated — refuting
"yields exactly M stubs and then terminates normally ... without issuing
further listing fetches". -/
theorem C1_counterexample :
    parse_imdb site0 2 5 = (["s"], 5, false) ∧
    (parse_imdb site0 2 5).2.2 ≠ true ∧
    (parse_imdb site0 2 5).2.1 ≠ 1 := by
  refine ⟨by decide, by decide, by decide⟩

/-- C1 amended: the crawl has no "next page" check.  If the page at offset 1
contains `M < N` containers and every other offset returns an empty
listing, then for any positive fuel the crawl has yielded exactly the `M`
stubs of the first page, has issued one listing fetch per loop iteration
(`fuel` of them, unboundedly many), and has not terminated. -/
theorem C1_short_read_never_terminates (site : Nat → List α) (N M fuel : Nat)
    (hM : (site 1).length = M) (hMN : M < N)
    (hempty : ∀ st, st ≠ 1 → site st = []) (hfuel : 1 ≤ fuel) :
    parse_imdb site N fuel = (site 1, fuel, false) := by
  obtain ⟨f, rfl⟩ : ∃ f, fuel = f + 1 := ⟨fuel - 1, by omega⟩
  have hN : 0 < N := by omega
  unfold parse_imdb
  rcases Nat.eq_zero_or_pos M with h0 | hpos
  · have hnil : site 1 = [] := by
      subst h0; exact List.length_eq_zero.mp hM
    rw [crawlLoop_empty site N (f + 1) 0 1 hnil hN, hnil]
  · have hcont := pageLoop_cont N (site 1) 0 (by omega)
    rw [hM] at hcont
    simp only [Nat.zero_add] at hcont
    have hrec := crawlLoop_empty site N f M (M + 1)
      (hempty (M + 1) (by omega)) hMN
    simp only [crawlLoop, hN, if_true]
    rw [hcont]
    simp [hrec]

theorem C1_short_read_never_terminates_witness :
    parse_imdb site0 2 7 = (site0 1, 7, false) :=
  C1_short_read_never_terminates site0 2 1 7 (by decide) (by decide)
    (fun st h => by simp [site0, h]) (by decide)

/-! ## Filter validator (`is_date_correct`, `get_html_params`, lines 45-125)

The module-level vocabulary (`TITLE_TYPES_SHORT`, `GENRES`,
`COUNTRY_TO_ABBR_MAPPING`, `TITLE_TYPES_WORDS`) is scraped from the search
form at startup; it enters the model as an explicit `Globals` value. -/

structure Globals where
  TITLE_TYPES_SHORT : List String
  TITLE_TYPES_WORDS : List String
  GENRES : List String
  COUNTRY_TO_ABBR_MAPPING : List (String × String)

/-- The CLI arguments consumed by `get_html_params` (argparse defaults are
all `None`; `min/max_user_rating` are parsed by `type=float`, modelled as
rationals). -/
structure Args where
  title_types : Option String := none
  release_date_from : Option String := none
  release_date_to : Option String := none
  genres : Option String := none
  min_user_rating : Option Rat := none
  max_user_rating : Option Rat := none
  countries : Option String := none

/-- The `params` dict built by `get_html_params` (`genres` is stored as the
list `args.genres.split()`, the other filters as strings; `start` is set to
1 at the end). -/
structure HtmlParams where
  title_type : Option String := none
  release_date : Option String := none
  genres : Option (List String) := none
  user_rating : Option String := none
  countries : Option String := none
  start : Nat := 1
deriving DecidableEq

/-- Python truthiness of an optional string (`None` and `''` are falsy). -/
def truthyS : Option String → Bool
  | none => false
  | some s => s != ""

/-- Python truthiness of an optional float (`None` and `0.0` are falsy). -/
def truthyR : Option Rat → Bool
  | none => false
  | some x => x != 0

/-- Python `x or default` on an optional float, as in
`args.min_user_rating = args.min_user_rating or 1.`. -/
def ratOrDefault (o : Option Rat) (d : Rat) : Rat :=
  match o with
  | none => d
  | some x => if x = 0 then d else x

/-- Source `is_date_correct` (line 45): length 10, the four slices, and the two
separator positions, in the source's order. -/
def is_date_correct (date : String) : Bool :=
  date.length == 10 &&
  (date.data.take 4).all Char.isDigit &&
  ((date.data.drop 5).take 2).all Char.isDigit &&
  ((date.data.drop 8).take 2).all Char.isDigit &&
  date.data.get? 4 == some '-' &&
  date.data.get? 7 == some '-'

/-- Title-type block (lines 53-62): split on `','`, strip and lowercase
each token, reject the first token not in the vocabulary, else join with
`','`. -/
def validate_title_types (gl : Globals) (o : Option String) : Except String (Option String) :=
  if truthyS o then
    let toks := (pySplitOnSep "," (o.getD "")).map (fun t => pyLower (pyStrip t))
    match toks.find? (fun t => !(gl.TITLE_TYPES_SHORT.contains t)) with
    | some bad =>
      .error (bad ++ " isn't one of available types\nAvailable types: " ++
        String.intercalate ", " gl.TITLE_TYPES_SHORT)
    | none => .ok (some (String.intercalate "," toks))
  else .ok none

/-- One release-date bound (lines 66-83): a truthy bound must pass
`is_date_correct`, a falsy one serializes to `''`. -/
def dateBound (o : Option String) : Except String String :=
  if truthyS o then
    if is_date_correct (o.getD "") then .ok (o.getD "")
    else .error "Date must be in YYYY-MM-DD format"
  else .ok ""

/-- Release-date block (lines 64-84): runs only if either bound is truthy;
the `from` bound is checked first; the two bounds are joined with `','`. -/
def validate_dates (dfrom dto : Option String) : Except String (Option String) :=
  if truthyS dfrom || truthyS dto then
    match dateBound dfrom with
    | .error e => .error e
    | .ok d0 =>
      match dateBound dto with
      | .error e => .error e
      | .ok d1 => .ok (some (d0 ++ "," ++ d1))
  else .ok none

/-- Genre block (lines 86-93): whitespace-split, reject the first genre
whose lowercase form is not in the vocabulary, else store the split list. -/
def validate_genres (gl : Globals) (o : Option String) : Except String (Option (List String)) :=
  if truthyS o then
    let gs := pySplitWs (o.getD "")
    match gs.find? (fun g => !(gl.GENRES.contains (pyLower g))) with
    | some bad =>
      .error (bad ++ " isn't one of available genres\nAvailable genres: " ++
        String.intercalate ", " gl.GENRES)
    | none => .ok (some gs)
  else .ok none

/-- Python `f'{round(x, 1)}'` for the rating bounds.  On inputs that are
exact multiples of 1/10 — the only inputs the theorems below quantify
over — `round(x, 1)` is the identity on the parsed float and `repr` prints
the integer part followed by exactly one fractional digit, which is what
this computes.  (For other inputs Python rounds in IEEE-double
arithmetic, which a rational model cannot reproduce bit-for-bit.) -/
def renderRating (x : Rat) : String :=
  let n : Int := (20 * x.num + (x.den : Int)).ediv (2 * (x.den : Int))
  toString (n.toNat / 10) ++ "." ++ toString (n.toNat % 10)

/-- One rating bound (lines 99-110): the range test `0 <= x <= 10`
(the source's `float(x >= 0.)` coercion is truthiness-equivalent to
`x >= 0.`), then the `f'{round(x, 1)}'` rendering. -/
def ratingBound (x : Rat) : Except String String :=
  if 0 ≤ x ∧ x ≤ 10 then .ok (renderRating x)
  else .error "Min user rating must be a number from 0 to 10"

/-- Rating block (lines 95-111): runs only if either bound is truthy (so a
bound equal to 0 counts as absent); absent/zero bounds default to 1.0 and
10.0; the rendered bounds are joined with `','`. -/
def validate_rating (mn mx : Option Rat) : Except String (Option String) :=
  if truthyR mn || truthyR mx then
    match ratingBound (ratOrDefault mn 1) with
    | .error e => .error e
    | .ok s0 =>
      match ratingBound (ratOrDefault mx 10) with
      | .error e => .error e
      | .ok s1 => .ok (some (s0 ++ "," ++ s1))
  else .ok none

/-- Country block (lines 113-121): the value must appear among the mapping's
display names or its codes; it is stored as given. -/
def validate_countries (gl : Globals) (o : Option String) : Except String (Option String) :=
  if truthyS o then
    if gl.COUNTRY_TO_ABBR_MAPPING.any (fun p => p.1 == o.getD "") ||
       gl.COUNTRY_TO_ABBR_MAPPING.any (fun p => p.2 == o.getD "") then
      .ok (some (o.getD ""))
    else
      .error ("Unknown country " ++ o.getD "" ++ "\nAvailable countries: " ++
        String.intercalate ", " (gl.COUNTRY_TO_ABBR_MAPPING.map (fun p => p.1)) ++
        "\nAvailable abbreviations: " ++
        String.intercalate ", " (gl.COUNTRY_TO_ABBR_MAPPING.map (fun p => p.2)))
  else .ok none

/-- Source `get_html_params` (lines 50-125): the five validation blocks in source
order (the first failing block raises), then `params['start'] = 1`. -/
def get_html_params (gl : Globals) (args : Args) : Except String HtmlParams :=
  match validate_title_types gl args.title_types with
  | .error e => .error e
  | .ok tt =>
    match validate_dates args.release_date_from args.release_date_to with
    | .error e => .error e
    | .ok rd =>
      match validate_genres gl args.genres with
      | .error e => .error e
      | .ok gs =>
        match validate_rating args.min_user_rating args.max_user_rating with
        | .error e => .error e
        | .ok ur =>
          match validate_countries gl args.countries with
          | .error e => .error e
          | .ok cs =>
            .ok { title_type := tt, release_date := rd, genres := gs,
                  user_rating := ur, countries := cs, start := 1 }

/-- An empty vocabulary, usable for claims that do not touch it. -/
def gl0 : Globals := ⟨[], [], [], []⟩

/-! ### Claim C8: date validation -/

/-- The claim's positional characterization of a well-formed date string
(stated from the spec's words, for comparison with the slice-based
`is_date_correct` of the source): exactly 10 characters, `'-'` at
zero-based positions 4 and 7, digits at positions 0-3, 5-6 and 8-9. -/
def dateSpecPositional (s : String) : Prop :=
  s.length = 10 ∧
  (s.data.get? 0).map Char.isDigit = some true ∧
  (s.data.get? 1).map Char.isDigit = some true ∧
  (s.data.get? 2).map Char.isDigit = some true ∧
  (s.data.get? 3).map Char.isDigit = some true ∧
  s.data.get? 4 = some '-' ∧
  (s.data.get? 5).map Char.isDigit = some true ∧
  (s.data.get? 6).map Char.isDigit = some true ∧
  s.data.get? 7 = some '-' ∧
  (s.data.get? 8).map Char.isDigit = some true ∧
  (s.data.get? 9).map Char.isDigit = some true

instance (s : String) : Decidable (dateSpecPositional s) := by
  unfold dateSpecPositional; infer_instance

lemma is_date_correct_iff (s : String) :
    is_date_correct s = true ↔ dateSpecPositional s := by
  obtain ⟨cs⟩ := s
  rcases cs with _|⟨a,_|⟨b,_|⟨c,_|⟨d,_|⟨e,_|⟨f,_|⟨g,_|⟨h,_|⟨i,_|⟨j,rest⟩⟩⟩⟩⟩⟩⟩⟩⟩⟩ <;>
    (simp [is_date_correct, dateSpecPositional, String.length, List.get?]; try tauto)

/-- C8: confirmed.  `is_date_correct` accepts a string iff it is exactly 10
characters with `'-'` at zero-based positions 4 and 7 and all-digit
year/month/day segments; and whenever a supplied `release_date_from` bound
fails this check, `get_html_params` raises instead of producing a query
(regardless of the remaining arguments and vocabulary). -/
theorem C8_date_validation (gl : Globals) (s : String) (args : Args) (d : String)
    (hd : args.release_date_from = some d) (hne : d ≠ "")
    (hbad : is_date_correct d = false) :
    (is_date_correct s = true ↔ dateSpecPositional s) ∧
    (get_html_params gl args).toOption = none := by
  refine ⟨is_date_correct_iff s, ?_⟩
  have ht : truthyS (some d) = true := by simp [truthyS, hne]
  have hdates : validate_dates args.release_date_from args.release_date_to =
      .error "Date must be in YYYY-MM-DD format" := by
    rw [hd]
    simp [validate_dates, ht, dateBound, hbad]
  unfold get_html_params
  cases htt : validate_title_types gl args.title_types with
  | error e => rfl
  | ok tt => simp [hdates, Except.toOption]

theorem C8_date_validation_witness :
    (is_date_correct "2020-01-02" = true ↔ dateSpecPositional "2020-01-02") ∧
    (get_html_params gl0 { release_date_from := some "2020/01/02" }).toOption = none :=
  C8_date_validation gl0 "2020-01-02" { release_date_from := some "2020/01/02" }
    "2020/01/02" rfl (by decide) (by decide)

/-! ### Claims C3 and C10: the user-rating block -/

/-- When every other argument is absent, `get_html_params` reduces to the
rating block: the other four blocks are skipped (their guards are falsy). -/
lemma get_html_params_ratings_only (gl : Globals) (mn mx : Option Rat) :
    get_html_params gl { min_user_rating := mn, max_user_rating := mx } =
      match validate_rating mn mx with
      | .error e => .error e
      | .ok ur => .ok { user_rating := ur, start := 1 } := by
  cases h : validate_rating mn mx with
  | error e =>
    simp [get_html_params, validate_title_types, validate_dates, validate_genres,
      validate_countries, truthyS, h]
  | ok ur =>
    simp [get_html_params, validate_title_types, validate_dates, validate_genres,
      validate_countries, truthyS, h]

/-- C3 counterexample: the pair (7.0, 10.0) is numeric and inside [0,10], but
the bounds are rendered `"7.0"` and `"10.0"`, not `"7"` and `"10"`:
`f'{round(x, 1)}'` keeps the trailing `.0` on an integer-valued bound, so
such bounds are NOT trimmed to an integer representation. -/
theorem C3_counterexample :
    get_html_params gl0 { min_user_rating := some 7, max_user_rating := some 10 } =
      .ok { user_rating := some "7.0,10.0", start := 1 } ∧
    "7.0,10.0" ≠ "7,10" := by
  exact ⟨rfl, by decide⟩

/-- C3 amended: for every supplied rating pair with both bounds multiples of
0.1 inside [0,10] (and not both zero — a pair of zeros is treated as absent,
claim C10), the build succeeds and renders each bound — after zero bounds
are replaced by the defaults — with exactly one decimal digit, so an
integer-valued bound keeps a trailing `.0`: 7.0 renders as `"7.0"` (not
`"7"`) and 7.5 as `"7.5"`. -/
theorem C3_rating_rendering (gl : Globals) (mn mx : Rat)
    (hmn0 : 0 ≤ mn) (hmn10 : mn ≤ 10) (hmx0 : 0 ≤ mx) (hmx10 : mx ≤ 10)
    (hnz : mn ≠ 0 ∨ mx ≠ 0)
    (_hden1 : (10 * mn).den = 1) (_hden2 : (10 * mx).den = 1) :
    get_html_params gl { min_user_rating := some mn, max_user_rating := some mx } =
      .ok { user_rating := some
              (renderRating (if mn = 0 then 1 else mn) ++ "," ++
               renderRating (if mx = 0 then 10 else mx)),
            start := 1 } ∧
    renderRating 7 = "7.0" ∧ renderRating (15/2) = "7.5" ∧
    renderRating 1 = "1.0" ∧ renderRating 10 = "10.0" := by
  have h75 : renderRating (15/2) = "7.5" := by
    have h1 : ((15:Rat)/2).num = 15 := by norm_num
    have h2 : ((15:Rat)/2).den = 2 := by norm_num
    simp only [renderRating, h1, h2]
    rfl
  refine ⟨?_, by decide, h75, by decide, by decide⟩
  rw [get_html_params_ratings_only]
  have htr : (truthyR (some mn) || truthyR (some mx)) = true := by
    rcases hnz with h | h <;> simp [truthyR, h]
  have hb1 : ratingBound (ratOrDefault (some mn) 1) =
      .ok (renderRating (if mn = 0 then 1 else mn)) := by
    unfold ratOrDefault ratingBound
    by_cases h : mn = 0
    · simp [h]
    · simp [h, hmn0, hmn10]
  have hb2 : ratingBound (ratOrDefault (some mx) 10) =
      .ok (renderRating (if mx = 0 then 10 else mx)) := by
    unfold ratOrDefault ratingBound
    by_cases h : mx = 0
    · simp [h]
    · simp [h, hmx0, hmx10]
  simp [validate_rating, htr, hb1, hb2]

theorem C3_rating_rendering_witness :
    get_html_params gl0 { min_user_rating := some 7, max_user_rating := some 10 } =
      .ok { user_rating := some
              (renderRating (if (7:Rat) = 0 then 1 else 7) ++ "," ++
               renderRating (if (10:Rat) = 0 then 10 else 10)),
            start := 1 } ∧
    renderRating 7 = "7.0" ∧ renderRating (15/2) = "7.5" ∧
    renderRating 1 = "1.0" ∧ renderRating 10 = "10.0" :=
  C3_rating_rendering gl0 7 10 (by norm_num) (by norm_num) (by norm_num)
    (by norm_num) (Or.inl (by norm_num)) (by norm_num) (by norm_num)

/-- C10: confirmed.  A rating bound of 0 is falsy in
`if args.min_user_rating or args.max_user_rating:` and in
`args.min_user_rating or 1.`, so a pair of zero bounds produces no
`user_rating` parameter at all, and a zero minimum with a supplied
maximum is silently replaced by the default 1.0 — a minimum rating of 0
can never reach the query even though 0 is inside the documented range. -/
theorem C10_zero_rating_treated_as_absent (gl : Globals) (mx : Rat)
    (h1 : 0 < mx) (h2 : mx ≤ 10) :
    get_html_params gl { min_user_rating := some 0, max_user_rating := some 0 } = .ok {} ∧
    get_html_params gl { min_user_rating := some 0, max_user_rating := some mx } =
      .ok { user_rating := some (renderRating 1 ++ "," ++ renderRating mx), start := 1 } ∧
    renderRating 1 = "1.0" := by
  refine ⟨?_, ?_, by decide⟩
  · rw [get_html_params_ratings_only]
    simp [validate_rating, truthyR]
  · rw [get_html_params_ratings_only]
    have hne : mx ≠ 0 := ne_of_gt h1
    have htr : (truthyR (some (0:Rat)) || truthyR (some mx)) = true := by
      simp [truthyR, hne]
    have hb1 : ratingBound (ratOrDefault (some 0) 1) = .ok (renderRating 1) := by
      unfold ratOrDefault ratingBound
      simp
    have hb2 : ratingBound (ratOrDefault (some mx) 10) = .ok (renderRating mx) := by
      unfold ratOrDefault ratingBound
      simp [hne, h1.le, h2]
    simp [validate_rating, htr, hb1, hb2]

theorem C10_zero_rating_treated_as_absent_witness :
    get_html_params gl0 { min_user_rating := some 0, max_user_rating := some 0 } = .ok {} ∧
    get_html_params gl0 { min_user_rating := some 0, max_user_rating := some 5 } =
      .ok { user_rating := some (renderRating 1 ++ "," ++ renderRating 5), start := 1 } ∧
    renderRating 1 = "1.0" :=
  C10_zero_rating_treated_as_absent gl0 5 (by norm_num) (by norm_num)

/-! ## Result-count resolver (`main`, lines 212-223)

```
if desc_span.text == 'No results.':
    return
else:
    n_films = int([n.replace(',', '') for n in desc_span.text.split()
                   if n.replace(',', '').isdigit()][-1])
n_films = n_films if n_films <= MAX_FILMS else MAX_FILMS
```
-/

def MAX_FILMS : Nat := 1000

/-- Python `n.replace(',', '')` followed by the `isdigit()` test and `int(...)`:
the numeric value of a token after stripping comma thousands-separators,
when what remains is nonempty and all digits. -/
def commaStripNat (tok : String) : Option Nat :=
  pyToNat? (String.mk (tok.data.filter (fun c => c != ',')))

/-- Outcome of reading the result-count description: `skip` = the literal
`"No results."` text (the crawl is skipped), `count n` = resolved total,
`parseFail` = no digit token (Python `IndexError` on `[-1]`). -/
inductive ResolveOutcome
  | skip
  | count : Nat → ResolveOutcome
  | parseFail
deriving DecidableEq

/-- The resolver: exact comparison with `'No results.'` first, else the
last whitespace-separated token that is all digits after comma-stripping. -/
def resolve_count (desc : String) : ResolveOutcome :=
  if desc = "No results." then .skip
  else
    match ((pySplitWs desc).filterMap commaStripNat).getLast? with
    | some n => .count n
    | none => .parseFail

/-- Line 223: `n_films = n_films if n_films <= MAX_FILMS else MAX_FILMS`. -/
def clampFilms (n : Nat) : Nat :=
  if n ≤ MAX_FILMS then n else MAX_FILMS

lemma getLast?_cons_eq (a : α) (l : List α) :
    (a :: l).getLast? = some (l.getLast?.getD a) := by
  induction l generalizing a with
  | nil => rfl
  | cons b m ih =>
    rw [List.getLast?_cons_cons, ih b]
    simp

lemma getLast?_mem_of_eq {l : List α} {a : α} (h : l.getLast? = some a) : a ∈ l := by
  obtain ⟨hne, rfl⟩ := List.mem_getLast?_eq_getLast (Option.mem_def.mpr h)
  exact List.getLast_mem hne

/-- Taking the last element of `filterMap f` is the same as taking the last
element that `f` accepts and applying `f` to it. -/
lemma filterMap_getLast? (f : α → Option β) :
    ∀ l : List α, (l.filterMap f).getLast? =
      ((l.filter (fun x => (f x).isSome)).getLast?).bind f := by
  intro l
  induction l with
  | nil => rfl
  | cons x l ih =>
    cases hfx : f x with
    | none =>
      simp only [List.filterMap_cons, List.filter_cons, hfx, Option.isSome_none,
        Bool.false_eq_true, if_false]
      exact ih
    | some v =>
      simp only [List.filterMap_cons, List.filter_cons, hfx, Option.isSome_some, if_true]
      rw [getLast?_cons_eq, getLast?_cons_eq]
      cases hl : (l.filter (fun x => (f x).isSome)).getLast? with
      | none =>
        rw [hl] at ih
        rw [ih] at *
        simp [hfx]
      | some y =>
        have hy : (f y).isSome := by
          have := getLast?_mem_of_eq hl
          exact (List.mem_filter.mp this).2
        rw [hl] at ih
        obtain ⟨w, hw⟩ := Option.isSome_iff_exists.mp hy
        rw [ih]
        simp [hw]

/-- C4: confirmed.  The resolver returns `skip` exactly on the literal
description `"No results."`; on any other description whose last
digit-after-comma-stripping token is `t` with value `n` it resolves to
`n`; the crawl target is the resolved count clamped to `MAX_FILMS = 1000`;
and the spec's example `"1-50 of 237 titles."` resolves to 237, clamped to
237. -/
theorem C4_result_count (desc : String) (t : String) (n m : Nat)
    (hne : desc ≠ "No results.")
    (hlast : ((pySplitWs desc).filter (fun x => (commaStripNat x).isSome)).getLast? = some t)
    (hval : commaStripNat t = some n) :
    resolve_count "No results." = ResolveOutcome.skip ∧
    resolve_count desc = ResolveOutcome.count n ∧
    clampFilms m = min m MAX_FILMS ∧
    resolve_count "1-50 of 237 titles." = ResolveOutcome.count 237 ∧
    clampFilms 237 = 237 := by
  refine ⟨by decide, ?_, ?_, by decide, by decide⟩
  · unfold resolve_count
    rw [if_neg hne, filterMap_getLast?, hlast]
    simp [hval]
  · unfold clampFilms MAX_FILMS
    split <;> omega

theorem C4_result_count_witness :
    resolve_count "No results." = ResolveOutcome.skip ∧
    resolve_count "1-50 of 2,370 titles." = ResolveOutcome.count 2370 ∧
    clampFilms 5 = min 5 MAX_FILMS ∧
    resolve_count "1-50 of 237 titles." = ResolveOutcome.count 237 ∧
    clampFilms 237 = 237 :=
  C4_result_count "1-50 of 2,370 titles." "2,370" 2370 5 (by decide) (by decide) (by decide)

/-! ## Record emission (`INFO_FIELDS` line 14, `main` lines 224-231)

```
INFO_FIELDS = ('index', 'name', 'genres', 'rating', 'type', 'stars',
               'details', 'box_office', 'tech_specs')
SEPARATOR = '\t'
out_csv_file.write(SEPARATOR.join(INFO_FIELDS) + '\n')
out_csv_file.write(SEPARATOR.join([film_info[key] for key in INFO_FIELDS]) + '\n')
```
-/

def INFO_FIELDS : List String :=
  ["index", "name", "genres", "rating", "type", "stars", "details", "box_office",
   "tech_specs"]

def SEPARATOR : String := "\t"

/-- The column list asserted by the claim/spec (stated from the spec's
words, for comparison with the source's `INFO_FIELDS`): it includes a
`link` column in third position. -/
def SPEC_CLAIMED_FIELDS : List String :=
  ["index", "name", "link", "genres", "rating", "type", "stars", "details",
   "box_office", "tech_specs"]

/-- The `film_info` dict yielded per film (lines 191-202): it carries all
ten values, including `link`. -/
structure FilmInfo where
  index : String
  name : String
  link : String
  genres : String
  rating : String
  type : String
  stars : String
  details : String
  box_office : String
  tech_specs : String

/-- Lookup `film_info[key]`: dict lookup by column name (`none` = Python
`KeyError`). -/
def filmInfoGet (f : FilmInfo) (k : String) : Option String :=
  if k = "index" then some f.index
  else if k = "name" then some f.name
  else if k = "link" then some f.link
  else if k = "genres" then some f.genres
  else if k = "rating" then some f.rating
  else if k = "type" then some f.type
  else if k = "stars" then some f.stars
  else if k = "details" then some f.details
  else if k = "box_office" then some f.box_office
  else if k = "tech_specs" then some f.tech_specs
  else none

/-- The header line written first: `SEPARATOR.join(INFO_FIELDS) + '\n'`. -/
def headerLine : String :=
  String.intercalate SEPARATOR INFO_FIELDS ++ "\n"

/-- One data row: `SEPARATOR.join([film_info[key] for key in INFO_FIELDS]) + '\n'`. -/
def rowLine (f : FilmInfo) : Option String :=
  (INFO_FIELDS.mapM (filmInfoGet f)).map
    (fun cells => String.intercalate SEPARATOR cells ++ "\n")

/-- C2 counterexample: the header actually written is the tab-join of the
nine `INFO_FIELDS` — there is no `link` column, so the claimed ten-column
header (with `link` third) is not what the first line contains, and a row
drops the record's link value (here `"L"`). -/
theorem C2_counterexample :
    headerLine ≠ String.intercalate SEPARATOR SPEC_CLAIMED_FIELDS ++ "\n" ∧
    "link" ∉ INFO_FIELDS ∧
    rowLine ⟨"1", "N", "L", "g", "r", "t", "s", "d", "b", "x"⟩ =
      some "1\tN\tg\tr\tt\ts\td\tb\tx\n" := by
  refine ⟨by decide, by decide, by decide⟩

/-- C2 amended: the first line written is the nine column names `index,
name, genres, rating, type, stars, details, box_office, tech_specs`
tab-joined (no `link` column), and every data row is the record's values
for exactly those nine keys, tab-joined in that order — the fetched link
is carried in the record but never emitted. -/
theorem C2_output_schema (f : FilmInfo) :
    headerLine = "index\tname\tgenres\trating\ttype\tstars\tdetails\tbox_office\ttech_specs\n" ∧
    rowLine f = some (f.index ++ "\t" ++ f.name ++ "\t" ++ f.genres ++ "\t" ++
      f.rating ++ "\t" ++ f.type ++ "\t" ++ f.stars ++ "\t" ++ f.details ++ "\t" ++
      f.box_office ++ "\t" ++ f.tech_specs ++ "\n") := by
  constructor
  · decide
  · rfl

/-! ## Block text normalizer (`handle_block` lines 128-132, split/dispatch
lines 179-190)

```
details_parts = details_container.split('<hr/>')
details, box_office, tech_specs = (None for _ in range(3))
for part in details_parts:
    block = BeautifulSoup(part, 'html.parser')
    block_name = block.find(['h2', 'h3']).text
    if block_name == 'Details': details = handle_block(block)
    elif block_name == 'Box Office': box_office = handle_block(block)
    elif block_name == 'Technical Specs': tech_specs = handle_block(block)
```

The black-box `BeautifulSoup(part)` tree is a parameter `pp`: for each raw
part it yields the text of the part's first `h2`/`h3` heading (`none` when
there is none — then `.text` on `None` raises, which the spec classifies
as a fatal `ParseError`) and the texts of its `div.txt-block` children. -/

structure DetailPart where
  heading : Option String
  txtBlocks : List String

/-- Source `handle_block` (lines 128-132): collapse each text block's whitespace,
strip the literal `'See more »'`, and join the blocks with the literal
two-character sequence `\n`. -/
def handle_block (blocks : List String) : String :=
  String.intercalate "\\n" (blocks.map (fun t => pyReplace (pyCollapse t) "See more »" ""))

/-- One `for part in details_parts` iteration over the accumulator
`(details, box_office, tech_specs)`; `none` = the part has no heading and
`.text` raises. -/
def normStep (pp : String → DetailPart)
    (acc : Option String × Option String × Option String) (p : String) :
    Option (Option String × Option String × Option String) :=
  match (pp p).heading with
  | none => none
  | some h =>
    if h = "Details" then some (some (handle_block (pp p).txtBlocks), acc.2.1, acc.2.2)
    else if h = "Box Office" then some (acc.1, some (handle_block (pp p).txtBlocks), acc.2.2)
    else if h = "Technical Specs" then some (acc.1, acc.2.1, some (handle_block (pp p).txtBlocks))
    else some acc

/-- The normalizer: split the raw container markup on the literal `<hr/>`
and run the dispatch loop from `(None, None, None)`. -/
def normalizeBlocks (pp : String → DetailPart) (container : String) :
    Option (Option String × Option String × Option String) :=
  List.foldlM (normStep pp) (none, none, none) (pySplitOnSep "<hr/>" container)

/-- Keep the first value if present, else the second (later loop iterations
overwrite earlier ones, so reading the parts right-to-left this is "the
last match wins"). -/
def slotOr : Option String → Option String → Option String
  | some v, _ => some v
  | none, a => a

/-- The value the claim assigns to one label: the normalized text of the
LAST part whose heading is exactly `label`, or `none` when no part
matches. -/
def lastMatch (pp : String → DetailPart) (label : String) : List String → Option String
  | [] => none
  | p :: rest =>
    slotOr (lastMatch pp label rest)
      (if (pp p).heading = some label then some (handle_block (pp p).txtBlocks) else none)

lemma slotOr_none_right : ∀ x : Option String, slotOr x none = x := by
  intro x; cases x <;> rfl

lemma bind_some_eq {α β : Type} (a : α) (f : α → Option β) : (some a >>= f) = f a := rfl

lemma slotOr_assoc (x y a : Option String) :
    slotOr (slotOr x y) a = slotOr x (slotOr y a) := by
  cases x <;> cases y <;> rfl

lemma lastMatch_eq_none_iff (pp : String → DetailPart) (label : String) :
    ∀ parts : List String,
    (lastMatch pp label parts = none ↔ ∀ p ∈ parts, (pp p).heading ≠ some label) := by
  intro parts
  induction parts with
  | nil => simp [lastMatch]
  | cons p rest ih =>
    constructor
    · intro h q hq
      rw [lastMatch] at h
      cases hx : lastMatch pp label rest with
      | some v => rw [hx] at h; exact absurd h (by simp [slotOr])
      | none =>
        rw [hx] at h
        rcases List.mem_cons.mp hq with rfl | hq'
        · intro hcon
          rw [hcon] at h
          simp [slotOr] at h
        · exact (ih.mp hx) q hq'
    · intro h
      rw [lastMatch]
      have h1 : lastMatch pp label rest = none :=
        ih.mpr (fun q hq => h q (List.mem_cons_of_mem p hq))
      have h2 : (pp p).heading ≠ some label := h p (List.mem_cons_self p rest)
      rw [h1, if_neg h2]
      rfl

lemma foldlM_normStep (pp : String → DetailPart) :
    ∀ (parts : List String) (acc : Option String × Option String × Option String),
    (∀ p ∈ parts, (pp p).heading ≠ none) →
    List.foldlM (normStep pp) acc parts =
      some (slotOr (lastMatch pp "Details" parts) acc.1,
            slotOr (lastMatch pp "Box Office" parts) acc.2.1,
            slotOr (lastMatch pp "Technical Specs" parts) acc.2.2) := by
  intro parts
  induction parts with
  | nil => intro acc _; simp [lastMatch, slotOr]
  | cons p rest ih =>
    intro acc hh
    have hp := hh p (List.mem_cons_self p rest)
    obtain ⟨h, hph⟩ := Option.ne_none_iff_exists'.mp hp
    have hrest : ∀ q ∈ rest, (pp q).heading ≠ none :=
      fun q hq => hh q (List.mem_cons_of_mem p hq)
    rw [List.foldlM_cons]
    by_cases h1 : h = "Details"
    · subst h1
      have hstep : normStep pp acc p =
          some (some (handle_block (pp p).txtBlocks), acc.2.1, acc.2.2) := by
        simp [normStep, hph]
      rw [hstep, bind_some_eq, ih _ hrest]
      simp only [lastMatch, hph]
      cases lastMatch pp "Details" rest <;>
        cases lastMatch pp "Box Office" rest <;>
          cases lastMatch pp "Technical Specs" rest <;>
            simp [slotOr]
    · by_cases h2 : h = "Box Office"
      · subst h2
        have hstep : normStep pp acc p =
            some (acc.1, some (handle_block (pp p).txtBlocks), acc.2.2) := by
          simp [normStep, hph]
        rw [hstep, bind_some_eq, ih _ hrest]
        simp only [lastMatch, hph]
        cases lastMatch pp "Details" rest <;>
          cases lastMatch pp "Box Office" rest <;>
            cases lastMatch pp "Technical Specs" rest <;>
              simp [slotOr]
      · by_cases h3 : h = "Technical Specs"
        · subst h3
          have hstep : normStep pp acc p =
              some (acc.1, acc.2.1, some (handle_block (pp p).txtBlocks)) := by
            simp [normStep, hph]
          rw [hstep, bind_some_eq, ih _ hrest]
          simp only [lastMatch, hph]
          cases lastMatch pp "Details" rest <;>
            cases lastMatch pp "Box Office" rest <;>
              cases lastMatch pp "Technical Specs" rest <;>
                simp [slotOr]
        · have hstep : normStep pp acc p = some acc := by
            simp [normStep, hph, h1, h2, h3]
          rw [hstep, bind_some_eq, ih _ hrest]
          simp only [lastMatch, hph]
          cases lastMatch pp "Details" rest <;>
            cases lastMatch pp "Box Office" rest <;>
              cases lastMatch pp "Technical Specs" rest <;>
                simp [slotOr, h1, h2, h3]

/-- C7: confirmed (for containers whose parts all carry a heading — a part
with no `h2`/`h3` heading makes `.text` raise, which the spec classifies
as a fatal `ParseError`, claim C7 presupposes headings).  The normalizer
splits the raw markup on the literal `<hr/>`, dispatches each part on its
heading text compared verbatim with `Details` / `Box Office` /
`Technical Specs`, normalizes the matched part's text blocks with
`handle_block` (whitespace collapse, `See more »` strip, literal `\n`
join), keeps the last matching part per label, and leaves `none` (emitted
as the absence sentinel) exactly for the labels with no matching part. -/
theorem C7_normalize (pp : String → DetailPart) (container : String)
    (hh : ∀ p ∈ pySplitOnSep "<hr/>" container, (pp p).heading ≠ none) :
    normalizeBlocks pp container =
      some (lastMatch pp "Details" (pySplitOnSep "<hr/>" container),
            lastMatch pp "Box Office" (pySplitOnSep "<hr/>" container),
            lastMatch pp "Technical Specs" (pySplitOnSep "<hr/>" container)) ∧
    (lastMatch pp "Details" (pySplitOnSep "<hr/>" container) = none ↔
      ∀ p ∈ pySplitOnSep "<hr/>" container, (pp p).heading ≠ some "Details") ∧
    (lastMatch pp "Box Office" (pySplitOnSep "<hr/>" container) = none ↔
      ∀ p ∈ pySplitOnSep "<hr/>" container, (pp p).heading ≠ some "Box Office") ∧
    (lastMatch pp "Technical Specs" (pySplitOnSep "<hr/>" container) = none ↔
      ∀ p ∈ pySplitOnSep "<hr/>" container, (pp p).heading ≠ some "Technical Specs") := by
  refine ⟨?_, lastMatch_eq_none_iff pp _ _, lastMatch_eq_none_iff pp _ _,
    lastMatch_eq_none_iff pp _ _⟩
  unfold normalizeBlocks
  rw [foldlM_normStep pp _ _ hh]
  simp [slotOr_none_right]

/-- C7 witness: a container with a `Details` part (one text block with
extra whitespace and a `See more »` marker), a `Box Office` part with no
text blocks, and no `Technical Specs` part. -/
def container0 : String := "d<hr/>b"

/-- Parsed trees for the witness container's two parts. -/
def pp0 : String → DetailPart := fun p =>
  if p = "d" then ⟨some "Details", ["  x   y  See more » z  "]⟩
  else if p = "b" then ⟨some "Box Office", []⟩
  else ⟨some "Other", []⟩

theorem C7_normalize_witness :
    normalizeBlocks pp0 container0 = some (some "x y  z", some "", none) :=
  ((C7_normalize pp0 container0 (by decide)).1).trans (by decide)

/-! ## Detail extractor: type detection (lines 157-161, 197)

```
type_ = film_soup.find('a', title='See more release dates')
if type_:
    type_ = ''.join([ch for ch in type_.text if ch.isalpha() or ch == ' ']).strip()
    type_ = ' '.join([word for word in type_.split() if word in TITLE_TYPES_WORDS])
    type_ = type_ or 'Feature Film'
...
'type': type_ or 'Null',
```

The release-date disclosure element is a parameter: `none` when absent,
`some t` with its text when present. -/

/-- Python `''.join([ch for ch in t if ch.isalpha() or ch == ' '])`. -/
def alphaSpace (t : String) : String :=
  String.mk (t.data.filter (fun c => c.isAlpha || c == ' '))

/-- The value of the `type_` variable after lines 157-161. -/
def extract_type (words : List String) (elemText : Option String) : Option String :=
  match elemText with
  | none => none
  | some t =>
    let t1 := pyStrip (alphaSpace t)
    let kept := (pySplitWs t1).filter (fun w => words.contains w)
    let t2 := String.intercalate " " kept
    some (if t2 = "" then "Feature Film" else t2)

/-- The emitted field `type_ or 'Null'` (line 197). -/
def typeField (v : Option String) : String :=
  match v with
  | none => "Null"
  | some s => if s = "" then "Null" else s

lemma pySplitChars_ne_nil :
    ∀ (cs acc : List Char), ∀ w ∈ pySplitChars cs acc, w.data ≠ [] := by
  intro cs
  induction cs with
  | nil =>
    intro acc w hw
    by_cases h : acc = []
    · simp [pySplitChars, h] at hw
    · simp [pySplitChars, h] at hw
      subst hw
      simp [h]
  | cons c cs ih =>
    intro acc w hw
    by_cases hws : pyWhitespace c
    · by_cases h : acc = []
      · rw [pySplitChars] at hw
        simp only [hws, if_true, h, if_pos rfl] at hw
        exact ih [] w hw
      · rw [pySplitChars] at hw
        simp only [hws, if_true, h, if_false] at hw
        rcases List.mem_cons.mp hw with rfl | hw'
        · simp [h]
        · exact ih [] w hw'
    · rw [pySplitChars] at hw
      simp only [hws, if_false] at hw
      exact ih (c :: acc) w hw

lemma string_data_ne_nil {w : String} (h : w ≠ "") : w.data ≠ [] := by
  intro hd
  apply h
  cases w with
  | mk data =>
    simp at hd
    subst hd
    rfl

lemma string_ne_empty_of_data {w : String} (h : w.data ≠ []) : w ≠ "" := by
  intro hcon
  subst hcon
  exact h rfl

lemma intercalate_go_length (s : String) :
    ∀ (as : List String) (acc : String),
    acc.length ≤ (String.intercalate.go acc s as).length := by
  intro as
  induction as with
  | nil => intro acc; exact le_refl _
  | cons a as ih =>
    intro acc
    refine le_trans ?_ (ih (acc ++ s ++ a))
    simp [String.length_append]
    omega

lemma intercalate_cons_ne_empty (w : String) (ws : List String) (hw : w ≠ "") :
    String.intercalate " " (w :: ws) ≠ "" := by
  intro hcon
  have h1 : w.length ≤ (String.intercalate " " (w :: ws)).length :=
    intercalate_go_length " " ws w
  rw [hcon] at h1
  have h2 : 0 < w.length := List.length_pos.mpr (string_data_ne_nil hw)
  have h3 : ("" : String).length = 0 := rfl
  omega

/-- C9: confirmed.  When the release-date disclosure element is absent the
emitted type field is the absence sentinel `Null`; when it is present with
text `t`, the field is the space-join of the words of `t` (after dropping
non-alphabetic, non-space characters) that belong to the vocabulary's
type-descriptive-word set, or the default `Feature Film` when no word
survives the filter. -/
theorem C9_type_detection (words : List String) (t : String) :
    typeField (extract_type words none) = "Null" ∧
    typeField (extract_type words (some t)) =
      (if (pySplitWs (pyStrip (alphaSpace t))).filter (fun w => words.contains w) = []
       then "Feature Film"
       else String.intercalate " "
         ((pySplitWs (pyStrip (alphaSpace t))).filter (fun w => words.contains w))) := by
  have key : ∀ kept : List String, (∀ w ∈ kept, w ≠ "") →
      typeField (some (if String.intercalate " " kept = "" then "Feature Film"
        else String.intercalate " " kept)) =
      (if kept = [] then "Feature Film" else String.intercalate " " kept) := by
    intro kept hks
    cases kept with
    | nil => decide
    | cons w ws =>
      have hw := hks w (List.mem_cons_self w ws)
      have hne := intercalate_cons_ne_empty w ws hw
      simp [typeField, hne]
  refine ⟨rfl, ?_⟩
  have hks : ∀ w ∈ (pySplitWs (pyStrip (alphaSpace t))).filter (fun w => words.contains w),
      w ≠ "" := by
    intro w hw
    exact string_ne_empty_of_data (pySplitChars_ne_nil _ [] w (List.mem_of_mem_filter hw))
  exact key _ hks

/-! ## Detail extractor: cast ("Stars") detection (lines 163-177, 198)

```
credit = film_soup.find_all('div', class_='credit_summary_item')
if credit:
    stars = ''
    for row in credit:
        if 'Stars' in row.text:
            for tag in row.children:
                if tag.name == 'h4': continue
                elif tag.name == 'span': break
                elif type(tag) is NavigableString: stars += str(tag)
                else: stars += tag.text
    stars = stars.strip()
...
'stars': stars or 'Null',
```

`stars` is a plain local of the generator: it is (re)assigned ONLY inside
`if credit:`, so when a film has no credit rows the variable still holds
the PREVIOUS film's value — and on the very first film it is unbound and
`stars or 'Null'` raises `NameError`.  The model threads that variable
explicitly: `none` = unbound. -/

/-- A child node of a credit row: an `h4` heading, a `span` (the trailing
"see more" link, which breaks the loop), a bare `NavigableString`, or any
other tag with its text. -/
inductive CreditNode
  | h4 : String → CreditNode
  | span : String → CreditNode
  | navStr : String → CreditNode
  | other : String → CreditNode
deriving DecidableEq

/-- The inner `for tag in row.children` loop: skip `h4`, stop at `span`,
else append the node's text. -/
def creditChildrenText : List CreditNode → String
  | [] => ""
  | CreditNode.h4 _ :: rest => creditChildrenText rest
  | CreditNode.span _ :: _ => ""
  | CreditNode.navStr s :: rest => s ++ creditChildrenText rest
  | CreditNode.other s :: rest => s ++ creditChildrenText rest

/-- One `credit_summary_item` row: its full text (for the `'Stars' in
row.text` test) and its child nodes. -/
structure CreditRow where
  text : String
  children : List CreditNode

/-- Lines 163-177 as an update of the `stars` variable: `prev` is the
variable's value before this film (`none` = not yet assigned).  With no
credit rows the body is skipped and the stale value survives; with rows,
the texts of every row containing `'Stars'` are concatenated and
stripped. -/
def starsUpdate (prev : Option String) (credit : List CreditRow) : Option String :=
  if credit.isEmpty then prev
  else
    some (pyStrip (credit.foldl
      (fun acc row =>
        if pyContains "Stars" row.text then acc ++ creditChildrenText row.children
        else acc)
      ""))

/-- The emitted field `stars or 'Null'` (line 198); `none` = the variable
is unbound and the expression raises `NameError`. -/
def starsField (v : Option String) : Option String :=
  v.map (fun s => if s = "" then "Null" else s)

/-- A credit row whose text carries the `Stars` label and whose children
name one star. -/
def creditRowA : CreditRow :=
  ⟨"Stars: Alice", [CreditNode.h4 "Stars:", CreditNode.navStr " Alice ",
    CreditNode.span "See full cast & crew"]⟩

/-- C6: the claim fails on the code.  A film whose detail document has no
credit-summary rows does NOT get the absence sentinel: processed after a
film whose rows produced `"Alice"`, its emitted stars field is the stale
`"Alice"`; processed first, the `stars` variable is unbound and emission
raises `NameError` (modelled as `none`).  Rows that exist but lack a
`"Stars"` label do produce the sentinel. -/
theorem C6_stale_stars :
    starsField (starsUpdate (starsUpdate none [creditRowA]) []) = some "Alice" ∧
    starsField (starsUpdate none []) = none ∧
    some "Alice" ≠ some "Null" ∧
    starsField (starsUpdate none [⟨"Directors: Bob", [CreditNode.navStr "Bob"]⟩]) =
      some "Null" := by
  refine ⟨by decide, by decide, by decide, by decide⟩
